import Mathlib

/-
Verification of the rambot stage registry, type directed auto wiring and
per run execution engine against its design document.

The repository carries two generations of the engine:
  * the current package src/rambot/scraper (utils.py holds the scrape
    wrapper with per item failure isolation and set based aggregation;
    scraper.py holds the Scraper class with read, write, create_document);
  * a legacy package src/scraper (scraper.py holds an older scrape wrapper
    with list aggregation and a ModeResult status; models.py holds the
    ScraperModeManager registry, Document, ModeStatus and ModeResult).
Both are embedded below.  Python machine integers, file handles and the
browser driver are external collaborators; files are modelled as their
parsed JSON trees, which is faithful because the design document treats
on disk JSON primitives as out of scope collaborators.
-/

namespace Rambot

/-- Primitive JSON compatible value carried by a Document field
(the artifact format of section 6 of the design document). -/
inductive Prim
  | pstr (s : String)
  | pint (n : Int)
  | pbool (b : Bool)
  | pnull
deriving DecidableEq

/-- Field map of a pydantic model instance: field name to primitive value,
in declaration order (pydantic model_dump preserves declaration order). -/
abbrev FieldMap := List (String × Prim)

/-- Lookup of a key in a field map; the first binding wins, as in a Python
dictionary. -/
def lookupField (obj : FieldMap) (k : String) : Option Prim :=
  (obj.find? (fun p => p.1 == k)).map (·.2)

/-- Document instance (class Document of src/scraper/models.py, a pydantic
BaseModel): a value of some Document subclass, identified by the subclass
name together with its field map.  Two documents are equal iff they have the
same class and all fields are equal, which is pydantic equality. -/
structure Doc where
  cls : String
  fields : FieldMap
deriving DecidableEq

/-- Declared shape of a Document subclass: its name and its declared field
names in declaration order. -/
structure DocClass where
  name : String
  fieldNames : List String
deriving DecidableEq

/-- Base Document class: it declares exactly the link field
(src/scraper/models.py line 18). -/
def baseDocument : DocClass := ⟨"Document", ["link"]⟩

/-- Document.to_dict alias model_dump (src/scraper/models.py lines 20-27):
the field map of the instance. -/
def Doc.to_dict (d : Doc) : FieldMap := d.fields

/-- Membership of a document in a declared subclass: a constructed instance
carries exactly the declared fields in declaration order. -/
def Doc.conformsTo (d : Doc) (c : DocClass) : Prop :=
  d.cls = c.name ∧ d.fields.map Prod.fst = c.fieldNames

instance (d : Doc) (c : DocClass) : Decidable (d.conformsTo c) := by
  unfold Doc.conformsTo
  exact inferInstance

/-- Python exception value, abstracted to the class and message the engine
inspects through isinstance and str. -/
inductive Exn
  | valueError (msg : String)
  | typeError (msg : String)
  | attributeError (msg : String)
  | driverError (msg : String)
  | fileNotFound (msg : String)
  | validationError (msg : String)
  | noProducerFound (typeName : String)
  | ambiguousProducer (typeName : String)
  | userExn (msg : String)
deriving DecidableEq

/-- Message of an exception, the str(e) the engine embeds into results. -/
def Exn.message : Exn → String
  | .valueError m => m
  | .typeError m => m
  | .attributeError m => m
  | .driverError m => m
  | .fileNotFound m => m
  | .validationError m => m
  | .noProducerFound t => "No producer found for type " ++ t
  | .ambiguousProducer t => "Ambiguous producer for type " ++ t
  | .userExn m => m

/-- Boolean success test for an Except value. -/
def exceptIsOk : Except Exn α → Bool
  | .ok _ => true
  | .error _ => false

/-- ModeStatus (src/scraper/models.py lines 209-218). -/
inductive ModeStatus
  | success
  | error
deriving DecidableEq

/-- ModeResult (src/scraper/models.py lines 221-233): status plus an
optional message, produced once per run. -/
structure ModeResult where
  status : ModeStatus
  message : Option String := none
deriving DecidableEq

/-- Pydantic construction of the declared fields from a keyword dictionary:
each declared field is looked up; a missing field is a validation failure;
extra keys are ignored, the pydantic default. -/
def constructFields (names : List String) (obj : FieldMap) : Option FieldMap :=
  match names with
  | [] => some []
  | n :: ns =>
    match lookupField obj n, constructFields ns obj with
    | some v, some rest => some ((n, v) :: rest)
    | _, _ => none

/-- Pydantic call document(**obj) as performed by Scraper.create_document:
build the instance from the keyword dictionary or fail with a validation
error. -/
def constructDoc (c : DocClass) (obj : FieldMap) : Except Exn Doc :=
  match constructFields c.fieldNames obj with
  | some fs => .ok ⟨c.name, fs⟩
  | none => .error (.validationError ("validation error for " ++ c.name))

/-- Python value returned by a handler: a Document, None, or some other
non document object. -/
inductive PyVal
  | doc (d : Doc)
  | pynone
  | other (s : String)
deriving DecidableEq

/-- Test isinstance(r, Document). -/
def PyVal.isDocument : PyVal → Bool
  | .doc _ => true
  | _ => false

/-- Result of one handler invocation: a scalar value or a list of values. -/
inductive HRes
  | val (v : PyVal)
  | list (vs : List PyVal)
deriving DecidableEq

/-- Python truthiness of a handler result: None and the empty list are
falsy, everything else the engine meets is truthy. -/
def HRes.truthy : HRes → Bool
  | .val .pynone => false
  | .val _ => true
  | .list vs => !vs.isEmpty

/-- Python listification performed by the wrappers: a list stays itself,
a scalar becomes a one element list. -/
def HRes.toList : HRes → List PyVal
  | .val v => [v]
  | .list vs => vs

/-- Handler of a stage: a fan out stage receives the input document, a
generator stage receives none; the handler may raise or return a value. -/
def Handler := Option Doc → Except Exn HRes

/-- Configured save hook of a stage, called with the aggregated collection;
being user code it may raise. -/
def SaveHook := List PyVal → Except Exn Unit

/-- Python set, represented by a duplicate free list in insertion order of
first occurrence.  CPython guarantees membership and distinctness of the
elements of a set but not an iteration order, so every theorem below uses
only membership and Nodup of this list, never its order. -/
def setAdd (s : List PyVal) (v : PyVal) : List PyVal :=
  if v ∈ s then s else s ++ [v]

/-- Python set.update with an iterable, element by element. -/
def setUpdate (s : List PyVal) (vs : List PyVal) : List PyVal :=
  vs.foldl setAdd s

namespace Legacy

/-- Mode descriptor of the legacy registry (src/scraper/models.py lines
39-90).  The logs_output field stores the value already resolved by the
set_default_logs validator, because pydantic runs the validator at
construction, before the Mode is stored. -/
structure Mode where
  name : String
  func : Option Handler := none
  input : Option String := none
  save : Option SaveHook := none
  document_input : Option DocClass := none
  path : String := "."
  save_logs : Bool := false
  logs_output : String

/-- Validator set_default_logs (src/scraper/models.py lines 67-90): a
missing logs_output defaults to path/name_date.log, a provided one is
prefixed with path/. -/
def setDefaultLogs (path name today : String) (v : Option String) : String :=
  match v with
  | none => path ++ "/" ++ name ++ "_" ++ today ++ ".log"
  | some s => path ++ "/" ++ s

/-- Construction of a Mode as performed inside register, with the validator
applied; today is the current date string the validator interpolates. -/
def mkMode (name : String) (func : Option Handler) (input : Option String)
    (save : Option SaveHook) (document_input : Option DocClass)
    (save_logs : Bool) (logs_output : Option String) (path : String)
    (today : String) : Mode :=
  ⟨name, func, input, save, document_input, path, save_logs,
    setDefaultLogs path name today logs_output⟩

/-- Registry of ScraperModeManager: the class level _modes dictionary,
name to descriptor, in insertion order (src/scraper/models.py line 103). -/
abbrev Registry := List (String × Mode)

/-- Python membership test name in cls._modes. -/
def containsName (reg : Registry) (name : String) : Bool :=
  reg.any (fun p => p.1 == name)

/-- Dictionary access cls._modes[name]. -/
def lookupMode (reg : Registry) (name : String) : Option Mode :=
  (reg.find? (fun p => p.1 == name)).map (·.2)

/-- ScraperModeManager.all (src/scraper/models.py lines 146-154). -/
def allNames (reg : Registry) : List String := reg.map Prod.fst

/-- Message of the unknown mode ValueError raised by validate. -/
def unknownMsg (reg : Registry) (m : String) : String :=
  "Mode " ++ m ++ " non reconnu. Modes disponibles: " ++
    String.intercalate ", " (allNames reg)

/-- ScraperModeManager.register (src/scraper/models.py lines 105-144): a
new Mode is stored only when the name is absent; a registration under an
existing name falls through the guard, mutating nothing and raising
nothing — the function is total and returns the registry. -/
def register (reg : Registry) (name : String) (func : Option Handler)
    (input : Option String) (save : Option SaveHook)
    (document_input : Option DocClass) (save_logs : Bool)
    (logs_output : Option String) (path : String) (today : String) :
    Registry :=
  if containsName reg name then reg
  else reg ++ [(name, mkMode name func input save document_input save_logs logs_output path today)]

/-- ScraperModeManager.validate (src/scraper/models.py lines 156-168):
raises ValueError iff the mode is not registered; it only reads the
registry, never changing it. -/
def validate (reg : Registry) (mode : String) : Except Exn Unit :=
  if containsName reg mode then .ok ()
  else .error (.valueError (unknownMsg reg mode))

/-- Externally visible effect of the engine, used to state that
construction performs no browser or file action. -/
inductive Effect
  | browserOpen
  | fileRead (name : String)
  | fileWrite (name : String)
  | logSetup
deriving DecidableEq

/-- Scraper construction (src/scraper/scraper.py lines 34-57; the rambot
constructor at src/rambot/scraper/scraper.py lines 45-95 has the same
structure): init stores the config and calls setup, which parses the mode
and url arguments, validates the mode against the registry — raising the
ValueError of validate for an unknown mode — and only then configures
logging.  The effect trace records every externally visible action of the
construction: a successful construction performs only the logging
configuration, and a failed validation performs nothing at all; the
browser is opened and files are touched only later, inside run. -/
def scraperInit (reg : Registry) (argsMode : String) :
    Except Exn String × List Effect :=
  match validate reg argsMode with
  | .error e => (.error e, [])
  | .ok _ => (.ok argsMode, [.logSetup])

/-- Artifact written by the legacy engine (src/scraper/scraper.py lines
137-151): a dictionary holding the data list of document field maps and the
run_stats object with status and message. -/
structure OldArtifact where
  data : List FieldMap
  runStats : ModeResult
deriving DecidableEq

/-- File system of the legacy engine: file name to parsed artifact. -/
abbrev OldFS := List (String × OldArtifact)

/-- Scraper.read of the legacy engine (src/scraper/scraper.py lines
154-160): json.load of the named file, returning the whole artifact
dictionary; a missing file raises. -/
def oldRead (fs : OldFS) (name : String) : Option OldArtifact :=
  (fs.find? (fun p => p.1 == name)).map (·.2)

/-- Scraper.write of the legacy engine (src/scraper/scraper.py lines
137-151): json.dump of the data plus run_stats dictionary into the file
named after the mode, replacing previous content; the newest binding
shadows older ones under oldRead. -/
def oldWrite (fs : OldFS) (name : String) (a : OldArtifact) : OldFS :=
  (name, a) :: fs

/-- Serialization of one aggregated value during legacy save
(src/scraper/scraper.py line 128, link.output()): Document.output is not
defined on the Document of src/scraper/models.py; it is modelled as the
to_dict field dump, per the artifact contract of section 4.4 of the design
document (a flat list of field maps, one per document).  Non documents
cannot reach this point because the wrapper has already type checked the
results. -/
def pyOutput : PyVal → FieldMap
  | .doc d => d.to_dict
  | _ => []

/-- Fan out loop of the legacy wrapper (src/scraper/scraper.py lines
283-300).  Per record: a missing document_input raises ValueError;
create_document builds the input document (a pydantic failure raises); the
handler is invoked with no per item guard, so a handler exception aborts
the whole loop; a truthy result is listified, type checked against
Document — a violation raises TypeError — and appended to the results,
keeping duplicates; the politeness delay has no observable effect. -/
def legacyLoop (h : Handler) (di : Option DocClass) (recs : List FieldMap)
    (acc : List PyVal) : Except Exn (List PyVal) :=
  match recs with
  | [] => .ok acc
  | r :: rest =>
    match di with
    | none => .error (.valueError "Missing document_input parameter")
    | some c =>
      match constructDoc c r with
      | .error e => .error e
      | .ok doc =>
        match h (some doc) with
        | .error e => .error e
        | .ok res =>
          if res.truthy then
            let vs := res.toList
            if vs.all PyVal.isDocument then legacyLoop h di rest (acc ++ vs)
            else .error (.typeError "Expected a list of Document results")
          else legacyLoop h di rest acc

/-- Synthetic input of the legacy URL override (src/scraper/scraper.py line
281): document_input(link=url).output() — a missing document_input is not
callable, and the construction may fail when the class declares more
required fields than link. -/
def legacySynthetic (di : Option DocClass) (url : String) :
    Except Exn (List FieldMap) :=
  match di with
  | none => .error (.typeError "NoneType object is not callable")
  | some c =>
    match constructDoc c [("link", .pstr url)] with
    | .error e => .error e
    | .ok d => .ok [d.to_dict]

/-- Protected region of the legacy wrapper (src/scraper/scraper.py lines
267-309): open the browser, require a handler, then either fan out over the
decoded input records (or the synthetic URL record) or run the generator
branch, whose result is listified without a truthiness check and type
checked against Document.  Every exception escaping this region is the
fatal error of the run. -/
def legacyBody (info : Mode) (url : Option String)
    (openResult : Except Exn Unit) (fs : OldFS) :
    Except Exn (List PyVal) :=
  match openResult with
  | .error e => .error e
  | .ok _ =>
    match info.func with
    | none => .error (.valueError ("No function associated with mode " ++ info.name))
    | some h =>
      match info.input with
      | some f =>
        match (match url with
               | some u => legacySynthetic info.document_input u
               | none =>
                 match oldRead fs f with
                 | some a => .ok a.data
                 | none => .error (.fileNotFound f)) with
        | .error e => .error e
        | .ok recs => legacyLoop h info.document_input recs []
      | none =>
        match h none with
        | .error e => .error e
        | .ok res =>
          let vs := res.toList
          if vs.all PyVal.isDocument then .ok vs
          else .error (.typeError "Expected a list of Document results")

/-- Outcome of one invocation of the legacy scrape wrapper. -/
structure LegacyOutcome where
  returned : Except Exn (List PyVal)
  result : Option ModeResult
  closeCalled : Bool
  fs : OldFS

/-- Scrape wrapper of the legacy engine (src/scraper/scraper.py lines
259-322).  The mode is validated before the protected region (line 265), so
an unknown mode raises ValueError straight to the caller: no artifact is
written, no browser is opened, no cleanup runs.  Inside the region any
exception is caught, resetting the results to the empty list and producing
an ERROR ModeResult carrying str(e); the finally block then always writes
the stage named artifact (the serialized results plus run_stats), closes
the browser and returns the results list — the return inside finally means
nothing escapes once the region was entered. -/
def legacyScrape (reg : Registry) (modeName : String) (url : Option String)
    (openResult : Except Exn Unit) (fs : OldFS) : LegacyOutcome :=
  match lookupMode reg modeName with
  | none => ⟨.error (.valueError (unknownMsg reg modeName)), none, false, fs⟩
  | some info =>
    let body := legacyBody info url openResult fs
    let pair : List PyVal × ModeResult :=
      match body with
      | .ok rs => (rs, ⟨.success, none⟩)
      | .error e => ([], ⟨.error, some e.message⟩)
    let results := pair.1
    let mres := pair.2
    let fs' := oldWrite fs (modeName ++ ".json") ⟨results.map pyOutput, mres⟩
    ⟨.ok results, some mres, true, fs'⟩

end Legacy

/-- Record shape exchanged through artifacts of the current engine: a
dictionary with a document key holding the document field map, plus
optional provenance keys.  The shape is fixed inside src/ by the URL
override record built at src/rambot/scraper/utils.py line 167 and by
create_document, which reads obj.get of the document key
(src/rambot/scraper/scraper.py line 467). -/
structure WireRec where
  document : FieldMap
  source : Option String := none
  mode : Option String := none
deriving DecidableEq

/-- Modelled from the spec: class ScrapedDocument of
rambot/scraper/models.py is not under src/.  Its constructor from_document
(called at utils.py line 188 with the document, the scraper class name and
the mode) wraps the document field map with that provenance, and its
to_dict serializes exactly this record, matching the wire shape read back
by create_document. -/
def scrapedFromDocument (d : Doc) (source mode : String) : WireRec :=
  ⟨d.to_dict, some source, some mode⟩

/-- File system of the current engine: file name to parsed JSON content, a
flat list of wire records (json.dump and json.load are out of scope
collaborators, so a file is identified with its parsed tree). -/
abbrev FileSys := List (String × List WireRec)

/-- Scraper.read of the current engine (src/rambot/scraper/scraper.py lines
450-458): json.load of the named file; a missing file raises through the
exception handler. -/
def fsRead (fs : FileSys) (name : String) : Option (List WireRec) :=
  (fs.find? (fun p => p.1 == name)).map (·.2)

/-- Scraper.write of the current engine (src/rambot/scraper/scraper.py
lines 432-447): json.dump of the serialized records into the file named
after the mode, replacing previous content; the newest binding shadows
older ones under fsRead. -/
def fsWrite (fs : FileSys) (name : String) (content : List WireRec) :
    FileSys :=
  (name, content) :: fs

namespace Engine

/-- Input source configured for a mode (the input argument of bind at
src/rambot/scraper/utils.py lines 36-45): an explicit filename, or a zero
argument producer callable modelled by the record list it returns. -/
inductive InputKind
  | file (name : String)
  | producer (records : List WireRec)

/-- Modelled from the spec: class Mode of rambot/scraper/models.py is not
under src/; its fields are exactly the keywords bind passes to
mode_manager.register (src/rambot/scraper/utils.py lines 105-115): name,
handler, input, declared output document type, expected input document
type, save hook and logging options. -/
structure Mode where
  name : String
  func : Option Handler := none
  input : Option InputKind := none
  document_output : DocClass := baseDocument
  expected_input_type : Option DocClass := none
  save : Option SaveHook := none
  enable_file_logging : Bool := false
  log_file_name : Option String := none
  log_directory : String := "."

/-- Registry of the current mode manager: a Python dictionary, name to
descriptor, in insertion order. -/
abbrev Registry := List (String × Mode)

/-- Dictionary access on the registry. -/
def lookup (reg : Registry) (name : String) : Option Mode :=
  (reg.find? (fun p => p.1 == name)).map (·.2)

/-- Message of the unknown mode error of the current engine. -/
def unknownModeMsg (name : String) : String :=
  "Mode " ++ name ++ " non reconnu"

/-- Producing modes for an input document type: all registered descriptors
whose declared output type equals the type exactly (section 4.2 of the
design document: exact type match, not structural). -/
def producersOf (reg : Registry) (t : DocClass) : List Mode :=
  (reg.map Prod.snd).filter (fun m => decide (m.document_output = t))

/-- Modelled from the spec: ScraperModeManager.get_auto_input of
rambot/scraper/models.py is not under src/ (its call site is
src/rambot/scraper/utils.py line 169).  Per section 4.2 of the design
document: an explicit input wins; otherwise, with a declared input type,
all registered descriptors are scanned for one whose output type matches —
zero matches fail with NoProducerFound, more than one fails with
AmbiguousProducer (the engine must not guess), and exactly one yields that
producer's persisted output file; with neither input nor input type the
stage is a generator and has no source. -/
def getAutoInput (reg : Registry) (name : String) :
    Except Exn (Option InputKind) :=
  match lookup reg name with
  | none => .error (.valueError (unknownModeMsg name))
  | some info =>
    match info.input with
    | some k => .ok (some k)
    | none =>
      match info.expected_input_type with
      | none => .ok none
      | some t =>
        match producersOf reg t with
        | [] => .error (.noProducerFound t.name)
        | [p] => .ok (some (.file (p.name ++ ".json")))
        | _ :: _ :: _ => .error (.ambiguousProducer t.name)

/-- Scraper.create_document of the current engine
(src/rambot/scraper/scraper.py lines 461-469): document(**obj.get of the
document key).  A pydantic validation failure goes to the exception
handler; module exception_handler.py is not under src/ and is modelled as
re-raising, per its construction with must_raise_exceptions holding
Exception (scraper.py lines 98-102, raise immediately) and the matching
semantics of the errors decorator in src/scraper/decorators.py. -/
def createDocument (c : DocClass) (r : WireRec) : Except Exn Doc :=
  constructDoc c r.document

/-- Outcome of the fan out item loop of the current engine. -/
structure LoopOut where
  results : List PyVal
  calls : List (Option Doc)
  fatal : Option Exn

/-- Fan out loop of the current scrape wrapper (src/rambot/scraper/utils.py
lines 173-180).  Per record: create_document builds the input document —
this call sits outside the per item guard, so its failure aborts the loop,
keeping the results accumulated so far; the handler is then invoked inside
the per item guard: an exception is logged and the item skipped, and a
truthy result is folded into the result set (a list is spread, a scalar
added); the politeness delay between items has no observable effect.  The
calls field records the handler invocations in order. -/
def itemLoop (h : Handler) (c : DocClass) (recs : List WireRec)
    (acc : List PyVal) (argAcc : List (Option Doc)) : LoopOut :=
  match recs with
  | [] => ⟨acc, argAcc, none⟩
  | r :: rest =>
    match createDocument c r with
    | .error e => ⟨acc, argAcc, some e⟩
    | .ok doc =>
      match h (some doc) with
      | .error _ => itemLoop h c rest acc (argAcc ++ [some doc])
      | .ok res =>
        itemLoop h c rest
          (if res.truthy then setUpdate acc res.toList else acc)
          (argAcc ++ [some doc])

/-- Input resolution of the current wrapper (src/rambot/scraper/utils.py
lines 166-170): a URL override yields exactly one synthetic record holding
only the link; otherwise get_auto_input supplies the source — a callable is
called, a filename is read (a missing file raises), no source means an
empty input set. -/
def resolveRecords (reg : Registry) (modeName : String) (url : Option String)
    (fs : FileSys) : Except Exn (List WireRec) :=
  match url with
  | some u => .ok [⟨[("link", .pstr u)], none, none⟩]
  | none =>
    match getAutoInput reg modeName with
    | .error e => .error e
    | .ok none => .ok []
    | .ok (some (.producer rs)) => .ok rs
    | .ok (some (.file f)) =>
      match fsRead fs f with
      | some rs => .ok rs
      | none => .error (.fileNotFound f)

/-- Result of the protected region of the current wrapper. -/
structure BodyOut where
  results : List PyVal
  calls : List (Option Doc)
  opened : Bool
  fatal : Option Exn

/-- Protected region of the current wrapper (src/rambot/scraper/utils.py
lines 163-183): open the browser (a failure is fatal), resolve the input
set, then either fan out over the records or — on an empty input set — run
the generator branch: one handler call with no document, its truthy result
folded into the result set with no type check.  The results accumulated
before a fatal error survive, because the results variable is assigned
before the try. -/
def runBody (reg : Registry) (modeName : String) (info : Mode) (h : Handler)
    (url : Option String) (openResult : Except Exn Unit) (fs : FileSys) :
    BodyOut :=
  match openResult with
  | .error e => ⟨[], [], false, some e⟩
  | .ok _ =>
    match resolveRecords reg modeName url fs with
    | .error e => ⟨[], [], true, some e⟩
    | .ok recs =>
      if recs.isEmpty then
        match h none with
        | .error e => ⟨[], [none], true, some e⟩
        | .ok res =>
          ⟨if res.truthy then setUpdate [] res.toList else [], [none], true, none⟩
      else
        let lo := itemLoop h (info.expected_input_type.getD baseDocument) recs [] []
        ⟨lo.results, lo.calls, true, lo.fatal⟩

/-- Serialization of one aggregated value during save of the current engine
(src/rambot/scraper/utils.py line 188): ScrapedDocument.from_document on a
non Document value fails, and the failure surfaces inside the finally
block. -/
def toScraped (clsName modeName : String) (v : PyVal) : Except Exn WireRec :=
  match v with
  | .doc d => .ok (scrapedFromDocument d clsName modeName)
  | _ => .error (.attributeError "object cannot be wrapped as ScrapedDocument")

/-- Serialization of the aggregated collection, element by element. -/
def toScrapedAll (clsName modeName : String) (vs : List PyVal) :
    Except Exn (List WireRec) :=
  match vs with
  | [] => .ok []
  | v :: rest =>
    match toScraped clsName modeName v with
    | .error e => .error e
    | .ok w =>
      match toScrapedAll clsName modeName rest with
      | .error e => .error e
      | .ok ws => .ok (w :: ws)

/-- Persist step inside the finally block of the current wrapper
(src/rambot/scraper/utils.py lines 186-188), reached only when the result
set is non empty: first the optional save hook with the aggregated list,
then Scraper.save, which wraps every value through
ScrapedDocument.from_document and writes the stage named artifact through
Scraper.write.  An exception here is raised inside finally, so it replaces
any pending exception, skips the close step and propagates to the
caller. -/
def persistStep (info : Mode) (clsName modeName : String)
    (results : List PyVal) (fs : FileSys) : Except Exn FileSys :=
  match info.save with
  | some hook =>
    match hook results with
    | .error e => .error e
    | .ok _ =>
      match toScrapedAll clsName modeName results with
      | .error e => .error e
      | .ok ws => .ok (fsWrite fs (modeName ++ ".json") ws)
  | none =>
    match toScrapedAll clsName modeName results with
    | .error e => .error e
    | .ok ws => .ok (fsWrite fs (modeName ++ ".json") ws)

/-- Outcome of one invocation of the current scrape wrapper. -/
structure RunOutcome where
  returned : Except Exn (List PyVal)
  result : Option ModeResult
  opened : Bool
  closeCalled : Bool
  calls : List (Option Doc)
  fs : FileSys
  persistRaised : Option Exn

/-- List the wrapper handed back, empty when it raised instead. -/
def RunOutcome.okList (o : RunOutcome) : List PyVal :=
  match o.returned with
  | .ok l => l
  | .error _ => []

/-- Scrape wrapper of the current engine (src/rambot/scraper/utils.py lines
156-193).  The mode is validated and its descriptor fetched before the try
(lines 158-160), so an unknown mode — or a descriptor with no handler —
raises straight to the caller with nothing opened, written or cleaned up.
The protected region runs the body; the finally block then persists the
result set if it is non empty, closes the browser and returns the list of
results.  The return inside finally swallows any fatal exception of the
body, so the wrapper returns normally even on a fatal run — unless the
persist step itself raises inside finally, which skips the close and
propagates.  The run status is modelled from the spec: ModeResult and
ModeStatus of rambot/scraper/models.py are not under src/, and per
sections 4.3 and 7 of the design document the run result carries SUCCESS
when no stage level fatal error occurred and ERROR with str(e)
otherwise. -/
def scrapeWrapper (reg : Registry) (modeName : String) (url : Option String)
    (openResult : Except Exn Unit) (fs : FileSys) (clsName : String) :
    RunOutcome :=
  match lookup reg modeName with
  | none =>
    ⟨.error (.valueError (unknownModeMsg modeName)), none, false, false, [], fs, none⟩
  | some info =>
    match info.func with
    | none =>
      ⟨.error (.attributeError "NoneType object has no attribute"), none,
        false, false, [], fs, none⟩
    | some h =>
      let b := runBody reg modeName info h url openResult fs
      let status : ModeResult :=
        match b.fatal with
        | none => ⟨.success, none⟩
        | some e => ⟨.error, some e.message⟩
      if b.results.isEmpty then
        ⟨.ok b.results, some status, b.opened, true, b.calls, fs, none⟩
      else
        match persistStep info clsName modeName b.results fs with
        | .error e => ⟨.error e, some status, b.opened, false, b.calls, fs, some e⟩
        | .ok fs' => ⟨.ok b.results, some status, b.opened, true, b.calls, fs', none⟩

end Engine

/-- Row of a producer artifact for a document, without provenance keys;
create_document only reads the document key, so provenance is inert. -/
def wireOf (d : Doc) : WireRec := ⟨d.to_dict, none, none⟩

/-- Contribution of one handler result to the aggregation of the current
engine: nothing when falsy, the listified value when truthy. -/
def HRes.contrib (r : HRes) : List PyVal :=
  if r.truthy then r.toList else []

/-- Contribution of one item to the aggregation: empty when the handler
raises on it (the item is skipped), its contribution otherwise. -/
def contribOf (h : Handler) (d : Doc) : List PyVal :=
  match h (some d) with
  | .error _ => []
  | .ok r => r.contrib

/-- Successful per item outputs of a fan out run, concatenated in item
order and not deduplicated: the reference fold the aggregation is compared
against. -/
def collectSucc (h : Handler) : List Doc → List PyVal
  | [] => []
  | d :: ds => contribOf h d ++ collectSucc h ds

/-- Reconstruction of a document collection from a read back artifact:
create_document on every record, in order (the consumer side of the
round trip contract of section 4.4). -/
def readBackDocs (c : DocClass) (ws : List WireRec) : Except Exn (List Doc) :=
  match ws with
  | [] => .ok []
  | w :: rest =>
    match Engine.createDocument c w with
    | .error e => .error e
    | .ok d =>
      match readBackDocs c rest with
      | .error e => .error e
      | .ok ds => .ok (d :: ds)

/-
Concrete fixtures used by witnesses and counterexamples.
-/

/-- Base class document with link a. -/
def docA : Doc := ⟨"Document", [("link", .pstr "a")]⟩

/-- Base class document with link b. -/
def docB : Doc := ⟨"Document", [("link", .pstr "b")]⟩

/-- Base class document with link c. -/
def docC : Doc := ⟨"Document", [("link", .pstr "c")]⟩

/-- Synthetic document built from the URL override fixture. -/
def dLink : Doc := ⟨"Document", [("link", .pstr "http://x")]⟩

/-- Document subclass City declaring link and name. -/
def cityClass : DocClass := ⟨"City", ["link", "name"]⟩

/-- City document fixture. -/
def cityVan : Doc := ⟨"City", [("link", .pstr "v"), ("name", .pstr "Vancouver")]⟩

/-- City document fixture. -/
def cityMtl : Doc := ⟨"City", [("link", .pstr "m"), ("name", .pstr "Montreal")]⟩

/-- Handler returning the document docA whatever the input. -/
def hConstA : Handler := fun _ => .ok (.val (.doc docA))

/-- Handler echoing its input document, raising exactly on docB. -/
def hFailB : Handler := fun od =>
  match od with
  | some d => if d = docB then .error (.userExn "boom") else .ok (.val (.doc d))
  | none => .ok (.val .pynone)

/-- Save hook that raises. -/
def hookBoom : SaveHook := fun _ => .error (.userExn "boom")

/-- Fan out mode whose handler raises on docB (fixture for failure
isolation). -/
def modeIso : Engine.Mode :=
  { name := "listing", func := some hFailB,
    input := some (.file "cities.json"),
    expected_input_type := some baseDocument }

/-- Registry holding only modeIso. -/
def regIso : Engine.Registry := [("listing", modeIso)]

/-- Producer artifact holding three base documents, the middle one making
the handler raise. -/
def fsIso : FileSys := [("cities.json", [wireOf docA, wireOf docB, wireOf docC])]

/-- Mode with a raising save hook (fixture for the cleanup claim). -/
def modeHook : Engine.Mode :=
  { name := "details", func := some hConstA, save := some hookBoom }

/-- Registry holding only modeHook. -/
def regHook : Engine.Registry := [("details", modeHook)]

/-- Consumer mode whose declared input type City cannot be constructed from
a link alone (fixture for the URL override claim). -/
def modeCity : Engine.Mode :=
  { name := "listing", func := some hConstA,
    input := some (.file "cities.json"),
    expected_input_type := some cityClass }

/-- Registry holding only modeCity. -/
def regCity : Engine.Registry := [("listing", modeCity)]

/-- Plain generator mode with no input and no expected type. -/
def modePlain : Engine.Mode := { name := "details", func := some hConstA }

/-- Registry holding only modePlain. -/
def regPlain : Engine.Registry := [("details", modePlain)]

/-- Producer mode declaring output type City. -/
def modeCities : Engine.Mode :=
  { name := "cities", func := some hConstA, document_output := cityClass }

/-- Consumer mode declaring input type City with no explicit input. -/
def modeListing : Engine.Mode :=
  { name := "listing", func := some hConstA,
    expected_input_type := some cityClass }

/-- Registry with exactly one producer of City and one consumer of City. -/
def regAuto : Engine.Registry := [("cities", modeCities), ("listing", modeListing)]

/-- Handler mapping every input to the same document (fixture for the
deduplication claims). -/
def hDup : Handler := fun _ => .ok (.val (.doc docA))

/-- Legacy fan out mode whose handler maps distinct records to the same
document. -/
def modeDup : Legacy.Mode :=
  Legacy.mkMode "listing" (some hDup) (some "cities.json") none
    (some baseDocument) false none "." "2026-02-03"

/-- Legacy registry holding only modeDup. -/
def regDup : Legacy.Registry := [("listing", modeDup)]

/-- Legacy producer artifact with two distinct records. -/
def fsDup : Legacy.OldFS :=
  [("cities.json",
    ⟨[[("link", Prim.pstr "a")], [("link", Prim.pstr "b")]], ⟨.success, none⟩⟩)]

/-- Legacy registry obtained by one registration of the mode cities. -/
def regOnce : Legacy.Registry :=
  Legacy.register [] "cities" (some hConstA) none none none false none "." "2026-02-03"

/-- Current engine fan out mode whose handler maps distinct records to the
same document (fixture for the deduplication claim). -/
def modeDedupE : Engine.Mode :=
  { name := "listing", func := some hDup,
    input := some (.file "cities.json"),
    expected_input_type := some baseDocument }

/-- Registry holding only modeDedupE. -/
def regDedupE : Engine.Registry := [("listing", modeDedupE)]

/-- Producer artifact with two distinct records for the deduplication
witness. -/
def fsDedupE : FileSys := [("cities.json", [wireOf docA, wireOf docB])]

/-- Legacy fan out mode whose handler raises on docB (fixture for the
failure isolation counterexample). -/
def modeIsoL : Legacy.Mode :=
  Legacy.mkMode "listing" (some hFailB) (some "cities.json") none
    (some baseDocument) false none "." "2026-02-03"

/-- Legacy registry holding only modeIsoL. -/
def regIsoL : Legacy.Registry := [("listing", modeIsoL)]

/-- Legacy producer artifact with three records, the middle one making the
handler raise. -/
def fsIsoL : Legacy.OldFS :=
  [("cities.json",
    ⟨[[("link", Prim.pstr "a")], [("link", Prim.pstr "b")],
      [("link", Prim.pstr "c")]], ⟨.success, none⟩⟩)]

/-
Helper lemmas.
-/

theorem mem_setAdd (s : List PyVal) (v w : PyVal) :
    w ∈ setAdd s v ↔ w ∈ s ∨ w = v := by
  unfold setAdd
  by_cases h : v ∈ s
  · simp only [if_pos h]
    constructor
    · exact fun hw => Or.inl hw
    · rintro (hw | rfl)
      · exact hw
      · exact h
  · simp [if_neg h]

theorem nodup_setAdd (s : List PyVal) (v : PyVal) (h : s.Nodup) :
    (setAdd s v).Nodup := by
  unfold setAdd
  by_cases hv : v ∈ s
  · simpa [if_pos hv]
  · simp only [if_neg hv]
    simpa [List.nodup_append] using ⟨h, fun hmem => hv hmem⟩

theorem setUpdate_nil (s : List PyVal) : setUpdate s [] = s := rfl

theorem setUpdate_cons (s : List PyVal) (v : PyVal) (vs : List PyVal) :
    setUpdate s (v :: vs) = setUpdate (setAdd s v) vs := rfl

theorem setUpdate_append (s : List PyVal) (xs ys : List PyVal) :
    setUpdate s (xs ++ ys) = setUpdate (setUpdate s xs) ys := by
  unfold setUpdate
  exact List.foldl_append _ _ _ _

theorem setUpdate_nil_arg (s : List PyVal) (vs : List PyVal) (h : vs = []) :
    setUpdate s vs = s := by
  rw [h]; rfl

theorem mem_setUpdate (s vs : List PyVal) (w : PyVal) :
    w ∈ setUpdate s vs ↔ w ∈ s ∨ w ∈ vs := by
  induction vs generalizing s with
  | nil => simp [setUpdate_nil]
  | cons v vs ih =>
    rw [setUpdate_cons, ih, mem_setAdd]
    constructor
    · rintro ((hw | rfl) | hw)
      · exact Or.inl hw
      · exact Or.inr (List.mem_cons_self _ _)
      · exact Or.inr (List.mem_cons_of_mem _ hw)
    · rintro (hw | hw)
      · exact Or.inl (Or.inl hw)
      · rcases List.mem_cons.mp hw with rfl | hw
        · exact Or.inl (Or.inr rfl)
        · exact Or.inr hw

theorem nodup_setUpdate (s vs : List PyVal) (h : s.Nodup) :
    (setUpdate s vs).Nodup := by
  induction vs generalizing s with
  | nil => simpa [setUpdate_nil]
  | cons v vs ih => exact setUpdate_cons s v vs ▸ ih _ (nodup_setAdd s v h)

theorem lookupField_cons_self (n : String) (v : Prim) (rest : FieldMap) :
    lookupField ((n, v) :: rest) n = some v := by
  simp [lookupField, List.find?]

theorem lookupField_cons_ne (n k : String) (v : Prim) (rest : FieldMap)
    (h : k ≠ n) : lookupField ((n, v) :: rest) k = lookupField rest k := by
  simp only [lookupField, List.find?]
  have : (n == k) = false := by
    simp [beq_iff_eq]
    exact fun hnk => h hnk.symm
  simp [this]

theorem constructFields_congr (names : List String) (o1 o2 : FieldMap)
    (h : ∀ k ∈ names, lookupField o1 k = lookupField o2 k) :
    constructFields names o1 = constructFields names o2 := by
  induction names with
  | nil => rfl
  | cons n ns ih =>
    unfold constructFields
    rw [h n (List.mem_cons_self _ _), ih (fun k hk => h k (List.mem_cons_of_mem _ hk))]

theorem constructFields_self (fs : FieldMap)
    (h : (fs.map Prod.fst).Nodup) :
    constructFields (fs.map Prod.fst) fs = some fs := by
  induction fs with
  | nil => rfl
  | cons p rest ih =>
    obtain ⟨n, v⟩ := p
    simp only [List.map_cons] at h ⊢
    have hn : n ∉ rest.map Prod.fst := (List.nodup_cons.mp h).1
    have hrest : (rest.map Prod.fst).Nodup := (List.nodup_cons.mp h).2
    unfold constructFields
    rw [lookupField_cons_self]
    have hcongr : constructFields (rest.map Prod.fst) ((n, v) :: rest)
        = constructFields (rest.map Prod.fst) rest := by
      apply constructFields_congr
      intro k hk
      exact lookupField_cons_ne n k v rest (fun hkn => hn (hkn ▸ hk))
    rw [hcongr, ih hrest]

theorem constructDoc_to_dict (c : DocClass) (d : Doc)
    (hc : d.conformsTo c) (hnd : c.fieldNames.Nodup) :
    constructDoc c d.to_dict = .ok d := by
  obtain ⟨hcls, hkeys⟩ := hc
  unfold constructDoc Doc.to_dict
  rw [← hkeys, constructFields_self d.fields (hkeys ▸ hnd)]
  cases d
  simp_all

theorem fsRead_fsWrite (fs : FileSys) (n : String) (c : List WireRec) :
    fsRead (fsWrite fs n c) n = some c := by
  simp [fsRead, fsWrite, List.find?]

theorem oldRead_oldWrite (fs : Legacy.OldFS) (n : String) (a : Legacy.OldArtifact) :
    Legacy.oldRead (Legacy.oldWrite fs n a) n = some a := by
  simp [Legacy.oldRead, Legacy.oldWrite, List.find?]

theorem collectSucc_append (h : Handler) (xs ys : List Doc) :
    collectSucc h (xs ++ ys) = collectSucc h xs ++ collectSucc h ys := by
  induction xs with
  | nil => rfl
  | cons d ds ih => simp [collectSucc, ih]

theorem mem_collectSucc (h : Handler) (ds : List Doc) (v : PyVal)
    (hv : v ∈ collectSucc h ds) : ∃ d ∈ ds, v ∈ contribOf h d := by
  induction ds with
  | nil => cases hv
  | cons d rest ih =>
    rcases List.mem_append.mp hv with hv | hv
    · exact ⟨d, List.mem_cons_self _ _, hv⟩
    · obtain ⟨d', hd', hvd⟩ := ih hv
      exact ⟨d', List.mem_cons_of_mem _ hd', hvd⟩

theorem itemLoop_map_wireOf (h : Handler) (c : DocClass) (ds : List Doc)
    (acc : List PyVal) (args : List (Option Doc))
    (hnd : c.fieldNames.Nodup) (hconf : ∀ d ∈ ds, d.conformsTo c) :
    Engine.itemLoop h c (ds.map wireOf) acc args =
      ⟨setUpdate acc (collectSucc h ds), args ++ ds.map some, none⟩ := by
  induction ds generalizing acc args with
  | nil => simp [Engine.itemLoop, collectSucc, setUpdate_nil]
  | cons d rest ih =>
    have hcd : Engine.createDocument c (wireOf d) = .ok d :=
      constructDoc_to_dict c d (hconf d (List.mem_cons_self _ _)) hnd
    have hrest : ∀ d' ∈ rest, d'.conformsTo c :=
      fun d' hd' => hconf d' (List.mem_cons_of_mem _ hd')
    simp only [List.map_cons, Engine.itemLoop, hcd]
    cases hh : h (some d) with
    | error e =>
      rw [ih _ _ hrest]
      have hcon : contribOf h d = [] := by unfold contribOf; rw [hh]
      simp [collectSucc, hcon, setUpdate_append]
    | ok r =>
      have hcon : contribOf h d = r.contrib := by unfold contribOf; rw [hh]
      have hstep : (if r.truthy then setUpdate acc r.toList else acc)
          = setUpdate acc r.contrib := by
        unfold HRes.contrib
        by_cases ht : r.truthy
        · simp [ht]
        · simp [ht, setUpdate_nil]
      dsimp only
      rw [hstep, ih _ _ hrest]
      simp [collectSucc, hcon, setUpdate_append]

theorem toScrapedAll_ok (cn mn : String) (vs : List PyVal)
    (h : ∀ v ∈ vs, v.isDocument = true) :
    ∃ ws, Engine.toScrapedAll cn mn vs = .ok ws := by
  induction vs with
  | nil => exact ⟨[], rfl⟩
  | cons v rest ih =>
    obtain ⟨ws, hws⟩ := ih (fun w hw => h w (List.mem_cons_of_mem _ hw))
    have hv := h v (List.mem_cons_self _ _)
    cases v with
    | doc d =>
      exact ⟨scrapedFromDocument d cn mn :: ws,
        by simp [Engine.toScrapedAll, Engine.toScraped, hws]⟩
    | pynone => simp [PyVal.isDocument] at hv
    | other s => simp [PyVal.isDocument] at hv

theorem readBackDocs_map (c : DocClass) (src mode : String) (docs : List Doc)
    (hnd : c.fieldNames.Nodup) (hconf : ∀ d ∈ docs, d.conformsTo c) :
    readBackDocs c (docs.map (fun d => scrapedFromDocument d src mode)) = .ok docs := by
  induction docs with
  | nil => rfl
  | cons d ds ih =>
    have hd : Engine.createDocument c (scrapedFromDocument d src mode) = .ok d :=
      constructDoc_to_dict c d (hconf d (List.mem_cons_self _ _)) hnd
    simp only [List.map_cons, readBackDocs, hd]
    rw [ih (fun d' hd' => hconf d' (List.mem_cons_of_mem _ hd'))]

/-
Claim theorems.
-/

/-- C7: registering a stage under a name that is already present in the
registry is a no-op — the registry is unchanged, the first descriptor stays
in effect under lookup, and no error is raised (register is a total
function). -/
theorem register_duplicate_is_noop (reg : Legacy.Registry) (name : String)
    (hreg : Legacy.containsName reg name = true)
    (f : Option Handler) (i : Option String) (s : Option SaveHook)
    (di : Option DocClass) (sl : Bool) (lo : Option String) (p today : String) :
    Legacy.register reg name f i s di sl lo p today = reg ∧
    Legacy.lookupMode (Legacy.register reg name f i s di sl lo p today) name
      = Legacy.lookupMode reg name := by
  unfold Legacy.register
  simp [hreg]

/-- Witness for C7: a registry holding the mode cities absorbs a second
registration of cities with different options, keeping the registry. -/
theorem register_duplicate_is_noop_witness :
    Legacy.containsName regOnce "cities" = true ∧
    Legacy.register regOnce "cities" none (some "other.json") none none
      true (some "x.log") "/tmp" "2026-02-04" = regOnce := by
  refine ⟨rfl, ?_⟩
  exact (register_duplicate_is_noop regOnce "cities" rfl none (some "other.json")
    none none true (some "x.log") "/tmp" "2026-02-04").1

/-- C9: validate raises exactly the unknown mode ValueError iff the name is
not registered, succeeds iff it is registered, and — being a pure reader of
the registry — changes nothing. -/
theorem validate_error_iff_unregistered (reg : Legacy.Registry) (n : String) :
    (Legacy.validate reg n = .ok () ↔ Legacy.containsName reg n = true) ∧
    ((∃ e, Legacy.validate reg n = .error e) ↔ Legacy.containsName reg n = false) ∧
    (∀ e, Legacy.validate reg n = .error e →
      e = .valueError (Legacy.unknownMsg reg n)) := by
  unfold Legacy.validate
  cases hb : Legacy.containsName reg n with
  | true => simp [hb]
  | false => simp [hb]

/-- C10: constructing a Scraper validates the parsed mode inside the
constructor itself: an unregistered mode makes construction fail with the
ValueError of validate, and the effect trace of the construction is empty —
no browser is opened, no file is read or written before (or after) the
validation fails. -/
theorem constructor_validates_mode_before_effects
    (reg : Legacy.Registry) (m : String)
    (hm : Legacy.containsName reg m = false) :
    (Legacy.scraperInit reg m).1 = .error (.valueError (Legacy.unknownMsg reg m)) ∧
    Legacy.Effect.browserOpen ∉ (Legacy.scraperInit reg m).2 ∧
    (∀ f, Legacy.Effect.fileRead f ∉ (Legacy.scraperInit reg m).2) ∧
    (∀ f, Legacy.Effect.fileWrite f ∉ (Legacy.scraperInit reg m).2) := by
  unfold Legacy.scraperInit Legacy.validate
  simp [hm]

/-- Witness for C10: constructing against a registry that only knows the
mode listing with the mode details fails and performs no effect. -/
theorem constructor_validates_mode_before_effects_witness :
    (Legacy.scraperInit regDup "details").1
      = .error (.valueError (Legacy.unknownMsg regDup "details")) ∧
    Legacy.Effect.browserOpen ∉ (Legacy.scraperInit regDup "details").2 ∧
    (∀ f, Legacy.Effect.fileRead f ∉ (Legacy.scraperInit regDup "details").2) ∧
    (∀ f, Legacy.Effect.fileWrite f ∉ (Legacy.scraperInit regDup "details").2) :=
  constructor_validates_mode_before_effects regDup "details" rfl

/-- C4: auto input resolution for a consumer with a declared input document
type and no explicit input: zero producers of that type fail with
NoProducerFound, exactly one producer makes its persisted output file the
consumer input source, and more than one producer fails with
AmbiguousProducer — never a silent pick. -/
theorem auto_input_resolution_trichotomy
    (reg : Engine.Registry) (name : String) (info : Engine.Mode) (t : DocClass)
    (hreg : Engine.lookup reg name = some info)
    (hinput : info.input = none)
    (hexp : info.expected_input_type = some t) :
    (Engine.producersOf reg t = [] →
      Engine.getAutoInput reg name = .error (.noProducerFound t.name)) ∧
    (∀ p, Engine.producersOf reg t = [p] →
      Engine.getAutoInput reg name = .ok (some (.file (p.name ++ ".json")))) ∧
    (∀ p q rest, Engine.producersOf reg t = p :: q :: rest →
      Engine.getAutoInput reg name = .error (.ambiguousProducer t.name)) := by
  refine ⟨?_, ?_, ?_⟩
  · intro h0
    simp [Engine.getAutoInput, hreg, hinput, hexp, h0]
  · intro p hp
    simp [Engine.getAutoInput, hreg, hinput, hexp, hp]
  · intro p q rest hpq
    simp [Engine.getAutoInput, hreg, hinput, hexp, hpq]

/-- Witness for C4: with one producer of City and one consumer of City
registered, resolution yields the producer artifact cities.json. -/
theorem auto_input_resolution_trichotomy_witness :
    Engine.getAutoInput regAuto "listing" = .ok (some (.file "cities.json")) :=
  (auto_input_resolution_trichotomy regAuto "listing" modeListing cityClass
    rfl rfl rfl).2.1 modeCities rfl

/-- C6: reading back the artifact written for a document collection returns
exactly the written records, and reconstructing them through
create_document yields documents field-equal to the originals, for every
Document subclass with primitive typed fields (distinct declared names). -/
theorem artifact_roundtrip_field_equal
    (c : DocClass) (docs : List Doc) (stage src mode : String) (fs : FileSys)
    (hnd : c.fieldNames.Nodup) (hconf : ∀ d ∈ docs, d.conformsTo c) :
    fsRead (fsWrite fs (stage ++ ".json")
        (docs.map (fun d => scrapedFromDocument d src mode))) (stage ++ ".json")
      = some (docs.map (fun d => scrapedFromDocument d src mode)) ∧
    readBackDocs c (docs.map (fun d => scrapedFromDocument d src mode)) = .ok docs :=
  ⟨fsRead_fsWrite _ _ _, readBackDocs_map c src mode docs hnd hconf⟩

/-- Witness for C6: two City documents round trip through write and read
unchanged. -/
theorem artifact_roundtrip_field_equal_witness :
    fsRead (fsWrite [] ("cities" ++ ".json")
        ([cityVan, cityMtl].map (fun d => scrapedFromDocument d "S" "cities")))
        ("cities" ++ ".json")
      = some ([cityVan, cityMtl].map (fun d => scrapedFromDocument d "S" "cities")) ∧
    readBackDocs cityClass
        ([cityVan, cityMtl].map (fun d => scrapedFromDocument d "S" "cities"))
      = .ok [cityVan, cityMtl] :=
  artifact_roundtrip_field_equal cityClass [cityVan, cityMtl] "cities" "S" "cities" []
    (by decide) (by decide)

/-- C2 counterexample: a run hitting the unknown stage fatal error raises
the ValueError to its caller — the wrapper validates before the protected
region — so no artifact is written, no cleanup runs and no ERROR result is
returned, contradicting the claim that every stage level fatal error still
writes an artifact, cleans up and returns a result. -/
theorem unknown_stage_raises_no_artifact :
    exceptIsOk (Legacy.legacyScrape regDup "details" none (.ok ()) []).returned = false ∧
    (Legacy.legacyScrape regDup "details" none (.ok ()) []).closeCalled = false ∧
    (Legacy.legacyScrape regDup "details" none (.ok ()) []).result = none ∧
    Legacy.oldRead (Legacy.legacyScrape regDup "details" none (.ok ()) []).fs
      "details.json" = none :=
  ⟨rfl, rfl, rfl, rfl⟩

/-- C2 amended: for every run whose stage is registered — so the fatal
error arises inside the protected region: resource open failure, missing
handler, input read failure, missing document_input, handler failure or
output type mismatch — the legacy engine returns normally instead of
raising, always performs cleanup, always writes the stage named artifact
whose run_stats equal the returned result, and on a fatal error the result
is ERROR with the message of the error and the returned collection is
empty.  An unknown stage instead raises before the protected region, as the
counterexample shows. -/
theorem registered_run_returns_result_and_artifact
    (reg : Legacy.Registry) (modeName : String) (url : Option String)
    (openR : Except Exn Unit) (fs : Legacy.OldFS) (info : Legacy.Mode)
    (hreg : Legacy.lookupMode reg modeName = some info) :
    exceptIsOk (Legacy.legacyScrape reg modeName url openR fs).returned = true ∧
    (Legacy.legacyScrape reg modeName url openR fs).closeCalled = true ∧
    (∃ a, Legacy.oldRead (Legacy.legacyScrape reg modeName url openR fs).fs
        (modeName ++ ".json") = some a ∧
      some a.runStats = (Legacy.legacyScrape reg modeName url openR fs).result ∧
      (∀ e, Legacy.legacyBody info url openR fs = .error e →
        a.runStats = ⟨.error, some e.message⟩ ∧ a.data = [] ∧
        (Legacy.legacyScrape reg modeName url openR fs).returned = .ok [])) := by
  cases hb : Legacy.legacyBody info url openR fs with
  | ok rs =>
    simp only [Legacy.legacyScrape, hreg, hb]
    refine ⟨by trivial, by trivial, ⟨_, oldRead_oldWrite _ _ _, by trivial, ?_⟩⟩
    intro e he
    simp at he
  | error e0 =>
    simp only [Legacy.legacyScrape, hreg, hb]
    refine ⟨by trivial, by trivial, ⟨_, oldRead_oldWrite _ _ _, by trivial, ?_⟩⟩
    intro e he
    have he2 : e0 = e := by simpa using he
    subst he2
    exact ⟨by trivial, by trivial, by trivial⟩

theorem scrapeWrapper_fanout
    (reg : Engine.Registry) (modeName clsName f : String) (info : Engine.Mode)
    (h : Handler) (c : DocClass) (fs : FileSys) (ds : List Doc)
    (hreg : Engine.lookup reg modeName = some info)
    (hfunc : info.func = some h)
    (hinput : info.input = some (Engine.InputKind.file f))
    (hexp : info.expected_input_type = some c)
    (hsave : info.save = none)
    (hnd : c.fieldNames.Nodup)
    (hne : ds ≠ [])
    (hconf : ∀ d ∈ ds, d.conformsTo c)
    (hfile : fsRead fs f = some (ds.map wireOf))
    (hdocs : ∀ v ∈ collectSucc h ds, v.isDocument = true) :
    (Engine.scrapeWrapper reg modeName none (.ok ()) fs clsName).returned
      = .ok (setUpdate [] (collectSucc h ds)) ∧
    (Engine.scrapeWrapper reg modeName none (.ok ()) fs clsName).result
      = some ⟨ModeStatus.success, none⟩ ∧
    (Engine.scrapeWrapper reg modeName none (.ok ()) fs clsName).calls
      = ds.map some ∧
    (Engine.scrapeWrapper reg modeName none (.ok ()) fs clsName).closeCalled
      = true := by
  have hres : Engine.resolveRecords reg modeName none fs = .ok (ds.map wireOf) := by
    simp only [Engine.resolveRecords, Engine.getAutoInput, hreg, hinput, hfile]
  have hnem : (ds.map wireOf).isEmpty = false := by
    cases ds with
    | nil => exact absurd rfl hne
    | cons d ds' => rfl
  have hloop := itemLoop_map_wireOf h c ds [] [] hnd hconf
  have hbody : Engine.runBody reg modeName info h none (.ok ()) fs
      = ⟨setUpdate [] (collectSucc h ds), ds.map some, true, none⟩ := by
    simp only [Engine.runBody, hres, hnem, hexp, Option.getD_some, Bool.false_eq_true,
      if_false, hloop, List.nil_append]
  have hall : ∀ v ∈ setUpdate [] (collectSucc h ds), v.isDocument = true := by
    intro v hv
    rcases (mem_setUpdate [] _ v).mp hv with h0 | h0
    · cases h0
    · exact hdocs v h0
  obtain ⟨ws, hws⟩ := toScrapedAll_ok clsName modeName _ hall
  have hpersist : Engine.persistStep info clsName modeName
      (setUpdate [] (collectSucc h ds)) fs
      = .ok (fsWrite fs (modeName ++ ".json") ws) := by
    simp only [Engine.persistStep, hsave, hws]
  cases hS : (setUpdate [] (collectSucc h ds)).isEmpty with
  | true =>
    have hSe : setUpdate [] (collectSucc h ds) = [] := by
      simpa using hS
    simp [Engine.scrapeWrapper, hreg, hfunc, hbody, hS, hSe]
  | false =>
    simp [Engine.scrapeWrapper, hreg, hfunc, hbody, hS, hpersist]

theorem scrapeWrapper_calls
    (reg : Engine.Registry) (modeName clsName : String) (url : Option String)
    (openR : Except Exn Unit) (fs : FileSys) (info : Engine.Mode) (h : Handler)
    (hreg : Engine.lookup reg modeName = some info)
    (hfunc : info.func = some h) :
    (Engine.scrapeWrapper reg modeName url openR fs clsName).calls
      = (Engine.runBody reg modeName info h url openR fs).calls := by
  simp only [Engine.scrapeWrapper, hreg, hfunc]
  cases hE : (Engine.runBody reg modeName info h url openR fs).results.isEmpty with
  | true => simp [hE]
  | false =>
    cases hP : Engine.persistStep info clsName modeName
        (Engine.runBody reg modeName info h url openR fs).results fs with
    | ok fs2 => simp [hE, hP]
    | error e => simp [hE, hP]

/-- Witness for C2 amended: a registered run whose browser fails to open
returns normally, cleans up and persists an empty ERROR artifact. -/
theorem registered_run_returns_result_and_artifact_witness :
    exceptIsOk (Legacy.legacyScrape regDup "listing" none
      (.error (.driverError "no tab")) fsDup).returned = true ∧
    (Legacy.legacyScrape regDup "listing" none
      (.error (.driverError "no tab")) fsDup).closeCalled = true ∧
    (∃ a, Legacy.oldRead (Legacy.legacyScrape regDup "listing" none
        (.error (.driverError "no tab")) fsDup).fs ("listing" ++ ".json") = some a ∧
      some a.runStats = (Legacy.legacyScrape regDup "listing" none
        (.error (.driverError "no tab")) fsDup).result ∧
      (∀ e, Legacy.legacyBody modeDup none (.error (.driverError "no tab")) fsDup
          = .error e →
        a.runStats = ⟨.error, some e.message⟩ ∧ a.data = [] ∧
        (Legacy.legacyScrape regDup "listing" none
          (.error (.driverError "no tab")) fsDup).returned = .ok [])) :=
  registered_run_returns_result_and_artifact regDup "listing" none
    (.error (.driverError "no tab")) fsDup modeDup rfl

/-- C1 counterexample: the legacy executor cited by the claim has no per
item guard around the handler call (src/scraper/scraper.py line 291) — a
handler exception on the second of three records propagates to the except
clause, which discards the results already produced from the other records
and sets status ERROR: the aggregated output is empty instead of holding
the other two results, and the status is ERROR instead of SUCCESS, even
though the handler had already succeeded on the first record. -/
theorem legacy_fanout_failure_aborts_stage :
    (Legacy.legacyScrape regIsoL "listing" none (.ok ()) fsIsoL).returned
      = .ok [] ∧
    (Legacy.legacyScrape regIsoL "listing" none (.ok ()) fsIsoL).result
      = some ⟨ModeStatus.error, some "boom"⟩ ∧
    hFailB (some docA) = .ok (.val (.doc docA)) :=
  ⟨rfl, rfl, rfl⟩

/-- C1 amended: in the current set based executor (src/rambot/scraper/utils.py),
a fan out run over n input records whose handler raises on exactly one of
them skips the failing item without aborting the stage: the handler is
still invoked on every record in order, the aggregated output is exactly
the fold of the successful outputs of the other n minus one records (each
such output is contained in the result), and the run result still carries
status SUCCESS.  The legacy executor in src/scraper/scraper.py instead
aborts the stage on the first handler exception, as the counterexample
shows. -/
theorem fanout_single_failure_isolated
    (reg : Engine.Registry) (modeName clsName f : String) (info : Engine.Mode)
    (h : Handler) (c : DocClass) (fs : FileSys)
    (docs1 docs2 : List Doc) (dbad : Doc) (e : Exn)
    (hreg : Engine.lookup reg modeName = some info)
    (hfunc : info.func = some h)
    (hinput : info.input = some (Engine.InputKind.file f))
    (hexp : info.expected_input_type = some c)
    (hsave : info.save = none)
    (hnd : c.fieldNames.Nodup)
    (hconf : ∀ d ∈ docs1 ++ dbad :: docs2, d.conformsTo c)
    (hfile : fsRead fs f = some ((docs1 ++ dbad :: docs2).map wireOf))
    (hbad : h (some dbad) = .error e)
    (_hgood : ∀ d ∈ docs1 ++ docs2, ∃ r, h (some d) = .ok r)
    (hdocs : ∀ v ∈ collectSucc h (docs1 ++ docs2), v.isDocument = true) :
    (Engine.scrapeWrapper reg modeName none (.ok ()) fs clsName).returned
      = .ok (setUpdate [] (collectSucc h (docs1 ++ docs2))) ∧
    (Engine.scrapeWrapper reg modeName none (.ok ()) fs clsName).result
      = some ⟨ModeStatus.success, none⟩ ∧
    (Engine.scrapeWrapper reg modeName none (.ok ()) fs clsName).calls
      = (docs1 ++ dbad :: docs2).map some ∧
    ∀ v ∈ collectSucc h (docs1 ++ docs2),
      v ∈ (Engine.scrapeWrapper reg modeName none (.ok ()) fs clsName).okList := by
  have hsplit : collectSucc h (docs1 ++ dbad :: docs2)
      = collectSucc h (docs1 ++ docs2) := by
    rw [collectSucc_append, collectSucc_append]
    have hc0 : contribOf h dbad = [] := by unfold contribOf; rw [hbad]
    simp [collectSucc, hc0]
  have main := scrapeWrapper_fanout reg modeName clsName f info h c fs
    (docs1 ++ dbad :: docs2) hreg hfunc hinput hexp hsave hnd (by simp)
    hconf hfile (by rw [hsplit]; exact hdocs)
  obtain ⟨h1, h2, h3, _⟩ := main
  rw [hsplit] at h1
  refine ⟨h1, h2, h3, ?_⟩
  intro v hv
  simp only [Engine.RunOutcome.okList, h1]
  exact (mem_setUpdate [] _ v).mpr (Or.inr hv)

/-- Witness for C1: three records, the handler raising on the middle one;
the run returns the outputs of the first and third records with status
SUCCESS. -/
theorem fanout_single_failure_isolated_witness :
    (Engine.scrapeWrapper regIso "listing" none (.ok ()) fsIso "S").returned
      = .ok (setUpdate [] (collectSucc hFailB ([docA] ++ [docC]))) ∧
    (Engine.scrapeWrapper regIso "listing" none (.ok ()) fsIso "S").result
      = some ⟨ModeStatus.success, none⟩ ∧
    (Engine.scrapeWrapper regIso "listing" none (.ok ()) fsIso "S").calls
      = ([docA] ++ docB :: [docC]).map some ∧
    ∀ v ∈ collectSucc hFailB ([docA] ++ [docC]),
      v ∈ (Engine.scrapeWrapper regIso "listing" none (.ok ()) fsIso "S").okList :=
  fanout_single_failure_isolated regIso "listing" "S" "cities.json" modeIso
    hFailB baseDocument fsIso [docA] [docC] docB (.userExn "boom")
    rfl rfl rfl rfl rfl (by decide) (by decide) rfl rfl
    (by
      intro d hd
      rcases List.mem_append.mp hd with h1 | h1
      · rcases List.mem_singleton.mp h1 with rfl
        exact ⟨.val (.doc docA), rfl⟩
      · rcases List.mem_singleton.mp h1 with rfl
        exact ⟨.val (.doc docC), rfl⟩)
    (by decide)

/-- C3 counterexample: the legacy executor cited by the claim does not
deduplicate — two records whose handler outputs are structurally identical
documents yield an aggregated collection holding the same document twice,
refuting that two structurally identical Documents collapse to one
entry. -/
theorem legacy_aggregation_keeps_duplicates :
    (Legacy.legacyScrape regDup "listing" none (.ok ()) fsDup).returned
      = .ok [PyVal.doc docA, PyVal.doc docA] ∧
    ¬ ([PyVal.doc docA, PyVal.doc docA] : List PyVal).Nodup :=
  ⟨rfl, by decide⟩

/-- C3 amended: in the current set based executor the aggregated output
holds exactly the distinct successful per item outputs — it is duplicate
free and a value belongs to it iff it occurs among the successful outputs
of the sequential fold, so structurally identical Documents collapse to one
entry — while the enumeration order of the persisted collection is
unspecified (Python set iteration order) and the legacy list based executor
does not deduplicate at all. -/
theorem engine_aggregation_dedups_by_equality
    (reg : Engine.Registry) (modeName clsName f : String) (info : Engine.Mode)
    (h : Handler) (c : DocClass) (fs : FileSys) (ds : List Doc)
    (hreg : Engine.lookup reg modeName = some info)
    (hfunc : info.func = some h)
    (hinput : info.input = some (Engine.InputKind.file f))
    (hexp : info.expected_input_type = some c)
    (hsave : info.save = none)
    (hnd : c.fieldNames.Nodup)
    (hne : ds ≠ [])
    (hconf : ∀ d ∈ ds, d.conformsTo c)
    (hfile : fsRead fs f = some (ds.map wireOf))
    (hdocs : ∀ v ∈ collectSucc h ds, v.isDocument = true) :
    (Engine.scrapeWrapper reg modeName none (.ok ()) fs clsName).okList.Nodup ∧
    (∀ v, v ∈ (Engine.scrapeWrapper reg modeName none (.ok ()) fs clsName).okList
      ↔ v ∈ collectSucc h ds) ∧
    exceptIsOk (Engine.scrapeWrapper reg modeName none (.ok ()) fs clsName).returned
      = true := by
  obtain ⟨h1, _, _, _⟩ := scrapeWrapper_fanout reg modeName clsName f info h c fs
    ds hreg hfunc hinput hexp hsave hnd hne hconf hfile hdocs
  have hok : (Engine.scrapeWrapper reg modeName none (.ok ()) fs clsName).okList
      = setUpdate [] (collectSucc h ds) := by
    simp only [Engine.RunOutcome.okList, h1]
  refine ⟨?_, ?_, ?_⟩
  · rw [hok]
    exact nodup_setUpdate _ _ List.nodup_nil
  · intro v
    rw [hok, mem_setUpdate]
    simp
  · simp [exceptIsOk, h1]

/-- Witness for C3 amended: two distinct records mapped by the handler to
the same document aggregate to a duplicate free collection containing
exactly that document. -/
theorem engine_aggregation_dedups_by_equality_witness :
    (Engine.scrapeWrapper regDedupE "listing" none (.ok ()) fsDedupE "S").okList.Nodup ∧
    (∀ v, v ∈ (Engine.scrapeWrapper regDedupE "listing" none (.ok ()) fsDedupE "S").okList
      ↔ v ∈ collectSucc hDup [docA, docB]) ∧
    exceptIsOk (Engine.scrapeWrapper regDedupE "listing" none (.ok ()) fsDedupE "S").returned
      = true :=
  engine_aggregation_dedups_by_equality regDedupE "listing" "S" "cities.json"
    modeDedupE hDup baseDocument fsDedupE [docA, docB]
    rfl rfl rfl rfl rfl (by decide) (by decide) (by decide) rfl (by decide)

/-- C5 counterexample: a run whose configured save hook raises during the
persist step inside the finally block skips the close step — the browser
was opened, close is never called, and the exception propagates — refuting
that the shared resource is released on every exit path. -/
theorem save_hook_failure_skips_close :
    (Engine.scrapeWrapper regHook "details" (some "http://x") (.ok ()) [] "S").opened
      = true ∧
    (Engine.scrapeWrapper regHook "details" (some "http://x") (.ok ()) [] "S").closeCalled
      = false ∧
    exceptIsOk (Engine.scrapeWrapper regHook "details" (some "http://x") (.ok ()) [] "S").returned
      = false :=
  ⟨rfl, rfl, rfl⟩

/-- C5 amended: for every run that enters the protected region (registered
mode with a handler) and whose persist step does not raise — in particular
on every fatal error during resource acquisition, input resolution,
execution or aggregation — the close step runs before the wrapper returns,
and the wrapper returns normally; conversely the close step is skipped only
when the persist step inside finally raised. -/
theorem cleanup_runs_unless_persist_raises
    (reg : Engine.Registry) (modeName clsName : String) (url : Option String)
    (openR : Except Exn Unit) (fs : FileSys) (info : Engine.Mode) (h : Handler)
    (hreg : Engine.lookup reg modeName = some info)
    (hfunc : info.func = some h) :
    ((Engine.scrapeWrapper reg modeName url openR fs clsName).persistRaised = none →
      (Engine.scrapeWrapper reg modeName url openR fs clsName).closeCalled = true ∧
      exceptIsOk (Engine.scrapeWrapper reg modeName url openR fs clsName).returned
        = true) ∧
    ((Engine.scrapeWrapper reg modeName url openR fs clsName).closeCalled = false →
      (Engine.scrapeWrapper reg modeName url openR fs clsName).persistRaised.isSome
        = true) := by
  simp only [Engine.scrapeWrapper, hreg, hfunc]
  cases hE : (Engine.runBody reg modeName info h url openR fs).results.isEmpty with
  | true => simp [hE, exceptIsOk]
  | false =>
    cases hP : Engine.persistStep info clsName modeName
        (Engine.runBody reg modeName info h url openR fs).results fs with
    | ok fs2 => simp [hE, hP, exceptIsOk]
    | error e => simp [hE, hP, exceptIsOk]

/-- Witness for C5 amended: a generator run with no save hook persists
without raising, so close runs and the wrapper returns normally. -/
theorem cleanup_runs_unless_persist_raises_witness :
    ((Engine.scrapeWrapper regPlain "details" none (.ok ()) [] "S").persistRaised = none →
      (Engine.scrapeWrapper regPlain "details" none (.ok ()) [] "S").closeCalled = true ∧
      exceptIsOk (Engine.scrapeWrapper regPlain "details" none (.ok ()) [] "S").returned
        = true) ∧
    ((Engine.scrapeWrapper regPlain "details" none (.ok ()) [] "S").closeCalled = false →
      (Engine.scrapeWrapper regPlain "details" none (.ok ()) [] "S").persistRaised.isSome
        = true) :=
  cleanup_runs_unless_persist_raises regPlain "details" "S" none (.ok ()) []
    modePlain hConstA rfl rfl

/-- C8 counterexample: a URL override against a stage whose declared input
type City needs more than the link makes document construction fail before
any handler invocation — the handler runs zero times, not exactly once, and
the run ends with a validation ERROR. -/
theorem url_override_unconstructible_input_skips_handler :
    (Engine.scrapeWrapper regCity "listing" (some "http://x") (.ok ()) [] "S").calls
      = [] ∧
    (Engine.scrapeWrapper regCity "listing" (some "http://x") (.ok ()) [] "S").result
      = some ⟨ModeStatus.error, some "validation error for City"⟩ :=
  ⟨rfl, rfl⟩

/-- C8 amended: a run invoked with a single URL override replaces the
computed input set — whatever the configured input and whatever the file
system holds — by exactly one synthetic record holding only the link, and
provided the declared input document type is constructible from the link
alone (for instance the base Document type), the handler is invoked exactly
once, with the synthetic document; when construction from the link fails,
the handler is never invoked. -/
theorem url_override_single_synthetic_invocation
    (reg : Engine.Registry) (modeName clsName u : String) (fs : FileSys)
    (info : Engine.Mode) (h : Handler) (d : Doc)
    (hreg : Engine.lookup reg modeName = some info)
    (hfunc : info.func = some h)
    (hctor : constructDoc (info.expected_input_type.getD baseDocument)
        [("link", .pstr u)] = .ok d) :
    (Engine.scrapeWrapper reg modeName (some u) (.ok ()) fs clsName).calls
      = [some d] := by
  rw [scrapeWrapper_calls reg modeName clsName (some u) (.ok ()) fs info h hreg hfunc]
  simp only [Engine.runBody, Engine.resolveRecords]
  cases hh : h (some d) with
  | error e => simp [Engine.itemLoop, Engine.createDocument, hctor, hh]
  | ok r => simp [Engine.itemLoop, Engine.createDocument, hctor, hh]

/-- Witness for C8 amended: a URL override against the listing stage, whose
producer artifact holds three records, invokes the handler exactly once
with the synthetic document built from the URL. -/
theorem url_override_single_synthetic_invocation_witness :
    (Engine.scrapeWrapper regIso "listing" (some "http://x") (.ok ()) fsIso "S").calls
      = [some dLink] :=
  url_override_single_synthetic_invocation regIso "listing" "S" "http://x"
    fsIso modeIso hFailB dLink rfl rfl rfl

end Rambot
